import Mathlib

/-!
Verification of the onnx2tf graph-translation engine against its design
specification.  The Python sources are shallowly embedded: pure decision
logic becomes Lean functions, Python exceptions become an explicit error
type threaded through `Except` / product results, machine integers become
`Int` (the quantities involved are small integers, where Python float
arithmetic is exact), and aggregate numeric errors become `ℚ`.
-/

/-! ## Conversion boundary (onnx2tf.py, `convert`, lines 84-117) -/

/-- Opaque stand-in for an in-memory `onnx.ModelProto` graph object.
Only identity matters to the boundary logic. -/
structure OnnxModel where
  tag : Nat
deriving DecidableEq

/-- Outcome of the boundary checks at the top of `convert`: either the
process exits with status 1 printing a message, or translation proceeds
on a loaded graph. -/
inductive BoundaryResult where
  | exit1 (msg : String)
  | proceed (g : OnnxModel)
deriving DecidableEq

/-- Message printed at lines 86-89 when neither input is supplied. -/
def missingInputMsg : String :=
  "ERROR: One of input_onnx_file_path or onnx_graph must be specified."

/-- Message printed at lines 102-106 when the input file does not exist. -/
def missingFileMsg (p : String) : String :=
  "ERROR: The specified *.onnx file does not exist. input_onnx_file_path: " ++ p

/-- Shallow embedding of onnx2tf.py `convert` lines 84-117.  The empty
string models a falsy `input_onnx_file_path`, `none` models `onnx_graph`
being `None`.  `fileExists` models `os.path.exists`; `loadFile` models
`onnx.load`.  Note the file-existence check at line 101 is performed
unconditionally, before line 115 decides which graph object to use. -/
def convertBoundary (input_onnx_file_path : String) (onnx_graph : Option OnnxModel)
    (fileExists : String → Bool) (loadFile : String → OnnxModel) : BoundaryResult :=
  if input_onnx_file_path = "" ∧ onnx_graph = none then
    .exit1 missingInputMsg
  else if ¬ fileExists input_onnx_file_path then
    .exit1 (missingFileMsg input_onnx_file_path)
  else
    .proceed (onnx_graph.getD (loadFile input_onnx_file_path))

/-! ## Walker input/output collection (onnx2tf.py, lines 163-181)

The IR store `tf_layers_dict` is a Python dict, hence iterated in
insertion order; we embed it as an association list of
(tensor name, runtime handle) in insertion order. -/

/-- Embedding of lines 167-171 and 177-181: iterate the store in insertion
order and keep the runtime handles of the entries whose name is among the
declared names. -/
def collectByNames (store : List (String × Nat)) (names : List String) : List Nat :=
  (store.filter (fun kv => decide (kv.1 ∈ names))).map (fun kv => kv.2)

/-- Collection in declared order, as the spec words it: for each declared
name, in declaration order, the handle of its store entry (if present).
This definition follows the words of the spec and exists only to be
compared with `collectByNames`, the embedding of the code. -/
def collectDeclaredOrder (store : List (String × Nat)) (names : List String) : List Nat :=
  names.filterMap (fun n => (store.find? (fun kv => decide (kv.1 = n))).map (fun kv => kv.2))

/-! ## Padding calculator (ops/AveragePool.py, lines 70-195) -/

/-- Values of the ONNX `auto_pad` attribute; `notset` is the `.get`
default `'NOTSET'` at line 82. -/
inductive AutoPadAttr where
  | notset
  | sameUpper
  | sameLower
  | validPad
deriving DecidableEq

/-- Attributes read at lines 71-84.  `ceil_mode` and `count_include_pad`
are already wrapped in `bool(...)`; `strides`, `dilations` and `pads`
keep their optionality, with the `.get` defaults applied by the
resolution helpers below. -/
structure PoolAttrs where
  ceil_mode : Bool
  count_include_pad : Bool
  kernel_shape : List Int
  strides : Option (List Int)
  dilations : Option (List Int)
  auto_pad : AutoPadAttr
  pads : Option (List Int)
deriving DecidableEq

/-- Line 75: `spatial_size = len(kernel_shape)`. -/
def PoolAttrs.spatialSize (a : PoolAttrs) : Nat := a.kernel_shape.length

/-- Line 77 default: `attrs.get('strides', [1] * spatial_size)`. -/
def PoolAttrs.stridesD (a : PoolAttrs) : List Int :=
  a.strides.getD (List.replicate a.spatialSize 1)

/-- Line 78 default: `attrs.get('dilations', [1] * spatial_size)`. -/
def PoolAttrs.dilationsD (a : PoolAttrs) : List Int :=
  a.dilations.getD (List.replicate a.spatialSize 1)

/-- Lines 84 and 127 default: `attrs.get('pads', [0] * spatial_size * 2)`. -/
def PoolAttrs.padsD (a : PoolAttrs) : List Int :=
  a.pads.getD (List.replicate (2 * a.spatialSize) 0)

/-- Floor of the real quotient of two integers (divisor positive):
`math.floor(a / b)`. -/
def floorDivInt (a b : Int) : Int := Int.fdiv a b

/-- Ceiling of the real quotient of two integers (divisor positive):
`math.ceil(a / b)`. -/
def ceilDivInt (a b : Int) : Int := -(Int.fdiv (-a) b)

/-- Modelled from the spec: `calc_pads_same_pooling` is imported from
`onnx2tf.utils.common_functions`, which is not among the sources.  Spec
section 4.3 defines the `"same"` mode as the padding computed to keep the
output size aligned to `ceil(input / stride)`; with `SAME_UPPER` the
larger half of the total padding goes at the end.  The result uses the
ONNX pads layout: all begin amounts followed by all end amounts. -/
def calcPadsSamePooling (inSpatial kernel strides dilations : List Int) : List Int :=
  let s := kernel.length
  let total := fun (i : Nat) =>
    let inD := inSpatial.getD i 0
    let st := strides.getD i 1
    let eff := (kernel.getD i 1 - 1) * dilations.getD i 1 + 1
    let outD := ceilDivInt inD st
    max ((outD - 1) * st + eff - inD) 0
  ((List.range s).map (fun i => total i / 2))
    ++ ((List.range s).map (fun i => total i - total i / 2))

/-- Value of the local variable `pads` after lines 82-96: either still an
explicit per-side list, or one of the `auto_pad` mode strings. -/
inductive PadsSel where
  | explicitPads (l : List Int)
  | sameUpperSel
  | sameLowerSel
  | validSel
deriving DecidableEq

/-- Lines 82-96 of AveragePool.py: with `auto_pad` equal to `'NOTSET'`,
read the explicit pads; when the shape is statically known and the pads
are nonzero and equal to the padding `"same"` mode would compute, switch
to the `'SAME_UPPER'` string.  Other `auto_pad` values pass through. -/
def resolvePadsVar (a : PoolAttrs) (inSpatial : List Int) (is_known_shape : Bool) : PadsSel :=
  match a.auto_pad with
  | .notset =>
    let p := a.padsD
    if is_known_shape ∧ p ≠ List.replicate (2 * a.spatialSize) 0
        ∧ p = calcPadsSamePooling inSpatial a.kernel_shape a.stridesD a.dilationsD
    then .sameUpperSel
    else .explicitPads p
  | .sameUpper => .sameUpperSel
  | .sameLower => .sameLowerSel
  | .validPad => .validSel

/-- Padding modes of the target runtime pooling layers. -/
inductive PaddingMode where
  | valid
  | same
deriving DecidableEq

/-- Manual pad operators that can be materialized in front of the pooling
layer: the `pad_input(...)` call at line 103, or the `tf.pad(...)` call
at line 150 (with its paddings argument and whether `SYMMETRIC` mode was
chosen over `CONSTANT`). -/
inductive ManualPad where
  | padInputOp (padding : PadsSel)
  | tfPadOp (paddings : List (Int × Int)) (symmetric : Bool)
deriving DecidableEq

/-- Modelled from the spec: `pad_input` is imported from
`onnx2tf.utils.common_functions`, which is not among the sources.  Spec
section 4.3 step 2: a manual pad operator with the exact per-side amounts
is materialized when the explicit padding is non-trivial; all-zero
explicit padding needs no pad operator.  For the `SAME_LOWER` and
`SAME_UPPER` strings the computed same padding is materialized (kept
abstract here as the selector). -/
def padInputNode (sel : PadsSel) (s : Nat) : Option ManualPad :=
  match sel with
  | .explicitPads l =>
    if l = List.replicate (2 * s) 0 then none else some (.padInputOp sel)
  | _ => some (.padInputOp sel)

/-- Lines 98-122: the initial padding mode and `pad_input` call.  The
input is padded manually and the mode set to `"valid"` when the padding
is explicit, or `SAME_LOWER`, or `SAME_UPPER` with `count_include_pad`;
bare `SAME_UPPER` and the final `else` branch use `"same"` with no pad. -/
def initialModePad (a : PoolAttrs) (sel : PadsSel) : PaddingMode × Option ManualPad :=
  match sel with
  | .explicitPads _ => (.valid, padInputNode sel a.spatialSize)
  | .sameLowerSel => (.valid, padInputNode sel a.spatialSize)
  | .sameUpperSel =>
    if a.count_include_pad then (.valid, padInputNode sel a.spatialSize)
    else (.same, none)
  | .validSel => (.same, none)

/-- Lines 128-131: the recomputed would-be output spatial size along one
axis, `func((in + pad_begin + pad_end - ((k-1)*d+1)) / stride + 1)` with
`func` being `math.floor` when `ceil_mode` is 0 and `math.ceil` when it
is 1. -/
def poolOutSize (ceil_mode : Bool) (inD pb pe k d st : Int) : Int :=
  let num := inD + pb + pe - ((k - 1) * d + 1)
  (if ceil_mode then ceilDivInt num st else floorDivInt num st) + 1

/-- Lines 127-134: the workaround loop.  The mode is forced to `"valid"`
when on some spatial axis the recomputed output size differs from
`input_tensor_shape[1+i]`, the INPUT spatial size along that axis. -/
def workaroundForcesValid (a : PoolAttrs) (inSpatial : List Int) : Bool :=
  let s := a.spatialSize
  let cp := a.padsD
  (List.range s).any (fun i =>
    decide (poolOutSize a.ceil_mode (inSpatial.getD i 0) (cp.getD i 0) (cp.getD (i + s) 0)
      (a.kernel_shape.getD i 1) (a.dilationsD.getD i 1) (a.stridesD.getD i 1)
      ≠ inSpatial.getD i 0))

/-- Comparison the spec describes for the same loop: the recomputed output
size against the DECLARED output spatial shape.  This definition follows
the words of the spec and exists only to be compared with
`workaroundForcesValid`, the embedding of the code. -/
def specForcesValid (a : PoolAttrs) (inSpatial outSpatial : List Int) : Bool :=
  let s := a.spatialSize
  let cp := a.padsD
  (List.range s).any (fun i =>
    decide (poolOutSize a.ceil_mode (inSpatial.getD i 0) (cp.getD i 0) (cp.getD (i + s) 0)
      (a.kernel_shape.getD i 1) (a.dilationsD.getD i 1) (a.stridesD.getD i 1)
      ≠ outSpatial.getD i 0))

/-- Lines 137-143: `tmp_pad`, the per-axis `[begin, end]` list with
`[0,0]` prepended for the batch axis and appended for the channel axis. -/
def tmpPad (cp : List Int) (s : Nat) : List (Int × Int) :=
  [(0, 0)] ++ List.zip (cp.take s) (cp.drop s) ++ [(0, 0)]

/-- Lines 146-149: the symmetric-safety check list.  Note the Python
slice is `tmp_pad[1:spatial_size]`, i.e. the entries at indices
`1 .. spatial_size-1`, covering spatial axes `0 .. spatial_size-2`. -/
def symmetricEnableCheck (tp : List (Int × Int)) (s : Nat) (inSpatial : List Int) : List Bool :=
  ((tp.drop 1).take (s - 1)).enum.map (fun dp =>
    decide (dp.2.1 ≤ inSpatial.getD dp.1 0 ∧ dp.2.2 ≤ inSpatial.getD dp.1 0))

/-- Safety condition as the spec words it: on EVERY spatial axis both the
begin and the end pad amount are at most the input extent of that axis.
This definition follows the words of the spec and exists only to be
compared with `symmetricEnableCheck`, the embedding of the code. -/
def allAxesSymmetricSafe (cp : List Int) (s : Nat) (inSpatial : List Int) : Bool :=
  (List.range s).all (fun i =>
    decide (cp.getD i 0 ≤ inSpatial.getD i 0 ∧ cp.getD (i + s) 0 ≤ inSpatial.getD i 0))

/-- Final result of the padding decision pipeline: the padding mode handed
to the pooling layer and the manual pad operator (if any) applied to the
tensor it consumes. -/
structure PoolLowering where
  padding : PaddingMode
  manualPad : Option ManualPad
deriving DecidableEq

/-- Lines 82-154 assembled: mode selection, the workaround loop, and the
`tf.pad` replacement.  When the `tf.pad` at line 150 fires it applies to
the ORIGINAL input tensor, discarding any earlier `pad_input` result. -/
def averagePoolPadDecision (a : PoolAttrs) (inSpatial : List Int)
    (is_known_shape : Bool) : PoolLowering :=
  let sel := resolvePadsVar a inSpatial is_known_shape
  let mp := initialModePad a sel
  let m1 := if workaroundForcesValid a inSpatial then PaddingMode.valid else mp.1
  let cp := a.padsD
  if m1 = PaddingMode.valid ∧ 0 < cp.sum then
    let tp := tmpPad cp a.spatialSize
    let ok := (symmetricEnableCheck tp a.spatialSize inSpatial).all (fun b => b)
    { padding := .valid, manualPad := some (.tfPadOp tp ok) }
  else
    { padding := m1, manualPad := mp.2 }

/-- Keras pooling layers by dimensionality (lines 164-187). -/
inductive TFPoolOp where
  | averagePooling1D
  | averagePooling2D
  | averagePooling3D
deriving DecidableEq

/-- Message built at lines 190-193 (color escape codes elided): it names
the operator and the unsupported dimensionality. -/
def poolRankErrMsg (opname : String) (n : Nat) : String :=
  "ERROR: AveragePool supports only 1D, 2D, and 3D. opname: " ++ opname
    ++ " Type: AveragePool" ++ toString n ++ "D"

/-- Lines 163-195: the pooling layer is generated for spatial ranks 1, 2
and 3; any other rank prints an error naming the operator and rank and
fails the assertion, producing no runtime node. -/
def buildPoolLayer (kernel_shape : List Int) (opname : String) : Except String TFPoolOp :=
  if kernel_shape.length = 1 then .ok .averagePooling1D
  else if kernel_shape.length = 2 then .ok .averagePooling2D
  else if kernel_shape.length = 3 then .ok .averagePooling3D
  else .error (poolRankErrMsg opname kernel_shape.length)

/-! ## Validation oracle (ops/Softmax.py, lines 127-188)

Building and running a trial candidate model in the target runtime is
abstracted into a `trial` function returning either the aggregate
absolute error of the candidate against the reference tensor, or the
Python exception raised while building or executing it.  Aggregate
errors are modelled in `ℚ`. -/

/-- Python exception classes relevant to the handler: the `KeyError` of a
failed dict lookup, `tf.errors.InvalidArgumentError` (the only class the
handler catches, line 187), and any other runtime error. -/
inductive PyExc where
  | keyError (key : String)
  | invalidArgument (msg : String)
  | runtimeError (msg : String)
deriving DecidableEq

/-- Fixed aggregate-error tolerance of the early exit at line 185. -/
def oracleTol : ℚ := 1 / 1000

/-- Value of `sys.maxsize`, the initial minimum error at line 129. -/
def sysMaxsize : ℚ := 9223372036854775807

/-- State of the mutable loop variables `min_abs_err` and
`min_abs_err_axis`, together with the trace of the candidates whose trial
completed (used to state the early-exit property). -/
structure OracleState where
  minAbsErr : ℚ
  minAbsErrAxis : Int
  evaluated : List Int
deriving DecidableEq

/-- Line 139: `check_axes = reversed([idx for idx in range(tensor_rank)])`. -/
def checkAxes (tensor_rank : Nat) : List Int :=
  ((List.range tensor_rank).map Int.ofNat).reverse

/-- Lines 144-186: the candidate loop.  Each iteration builds the trial
model, runs a dummy inference and aggregates the absolute error
(`trial`); a lower error than the running minimum updates both state
variables, and the loop breaks once the minimum falls below
`oracleTol`.  An exception raised by a trial escapes the loop, returned
together with the state reached so far (the state survives, since the
Python variables are updated in place). -/
def oracleLoop (trial : Int → Except PyExc ℚ) :
    List Int → OracleState → OracleState × Option PyExc
  | [], st => (st, none)
  | a :: rest, st =>
    match trial a with
    | .error e => (st, some e)
    | .ok err =>
      let st' : OracleState :=
        { minAbsErr := st.minAbsErr, minAbsErrAxis := st.minAbsErrAxis
          evaluated := st.evaluated ++ [a] }
      if err < st'.minAbsErr then
        let st'' : OracleState :=
          { minAbsErr := err, minAbsErrAxis := a, evaluated := st'.evaluated }
        if st''.minAbsErr < oracleTol then (st'', none)
        else oracleLoop trial rest st''
      else oracleLoop trial rest st'

/-- Reference tensors are opaque here; only their presence in the
reference set matters to the control flow. -/
structure RefTensor where
  tag : Nat
deriving DecidableEq

/-- Python dict subscript `d[k]`: raises `KeyError` when absent. -/
def dictGetRef (d : List (String × RefTensor)) (k : String) : Except PyExc RefTensor :=
  match d.find? (fun kv => decide (kv.1 = k)) with
  | some kv => .ok kv.2
  | none => .error (.keyError k)

/-- Embedding of Softmax.py lines 129-188.  `axis` is the structurally
default candidate (the layout-converted axis), which initializes
`min_abs_err_axis`.  `onnx_tensor_infos_for_validation` models the value
of `kwargs['onnx_tensor_infos_for_validation']` (assumed present;
`none` models validation being disabled).  When it is a reference set,
the subscript `[graph_node_output.name]` at line 136 may raise
`KeyError`; then the candidate loop runs.  The surrounding `try` has a
single handler, `except tf.errors.InvalidArgumentError: pass`
(lines 187-188): that class is swallowed and execution continues with
the current `min_abs_err_axis`; every other exception propagates. -/
def softmaxAxisSearch (axis : Int) (tensor_rank : Nat) (outputName : String)
    (onnx_tensor_infos_for_validation : Option (List (String × RefTensor)))
    (trial : Int → Except PyExc ℚ) : Except PyExc Int :=
  let st0 : OracleState := ⟨sysMaxsize, axis, []⟩
  let run : OracleState × Option PyExc :=
    match onnx_tensor_infos_for_validation with
    | none => (st0, none)
    | some refs =>
      match dictGetRef refs outputName with
      | .error e => (st0, some e)
      | .ok _ => oracleLoop trial (checkAxes tensor_rank) st0
  match run with
  | (st, none) => .ok st.minAbsErrAxis
  | (st, some (.invalidArgument _)) => .ok st.minAbsErrAxis
  | (_, some e) => .error e

/-! ## Clip lowering (ops/Clip.py, lines 41-89) -/

/-- Value of `min_value` / `max_value` after lines 42-51: either a
constant scalar ndarray, or a graph tensor whose declared shape may be
unknown (`None`). -/
inductive ClipBound where
  | ndarrayConst (v : ℚ)
  | tensorVal (shape : Option (List Int))
deriving DecidableEq

/-- Test `isinstance(b, np.ndarray) and b == q` for a scalar constant. -/
def ClipBound.isNdarrayEq (b : ClipBound) (q : ℚ) : Bool :=
  match b with
  | .ndarrayConst v => decide (v = q)
  | .tensorVal _ => false

/-- Test `b.shape is None`.  An ndarray always has a shape tuple, so only
a tensor with unknown declared shape satisfies it. -/
def ClipBound.shapeIsNone (b : ClipBound) : Bool :=
  match b with
  | .ndarrayConst _ => false
  | .tensorVal s => s.isNone

/-- Runtime nodes the Clip handler can produce (lines 53-89). -/
inductive ClipTFNode where
  | relu6 (x : Nat)
  | relu (x : Nat)
  | clipByValue (x : Nat) (mn mx : ClipBound)
  | maximumOp (x : Nat) (mn : ClipBound)
  | minimumOp (x : Nat) (mx : ClipBound)
deriving DecidableEq

/-- Embedding of Clip.py lines 53-89: the branch ladder choosing the
runtime node.  `x` is the handle of the input tensor.  When every branch
condition fails (both bounds of unknown shape) no node is produced. -/
def clipMakeNode (x : Nat) (min_value max_value : ClipBound) : Option ClipTFNode :=
  if min_value.isNdarrayEq 0 ∧ max_value.isNdarrayEq 6 then
    some (.relu6 x)
  else if min_value.isNdarrayEq 0 ∧ max_value.shapeIsNone then
    some (.relu x)
  else if ¬ min_value.shapeIsNone ∧ ¬ max_value.shapeIsNone then
    some (.clipByValue x min_value max_value)
  else if ¬ min_value.shapeIsNone ∧ max_value.shapeIsNone then
    some (.maximumOp x min_value)
  else if min_value.shapeIsNone ∧ ¬ max_value.shapeIsNone then
    some (.minimumOp x max_value)
  else
    none

/-! ## Claim-specific concrete configurations -/

/-- Pooling attributes for the C1 evidence: `auto_pad` `SAME_UPPER`,
kernel `[2,2]`, strides `[2,2]`, dilations `[1,1]`, no explicit pads. -/
def c1Attrs : PoolAttrs :=
  ⟨false, false, [2, 2], some [2, 2], some [1, 1], .sameUpper, none⟩

/-- Pooling attributes of the C5 concrete scenario: `NOTSET`, explicit
pads `[1,1,1,1]`, kernel `[2,2]`, strides `[2,2]`, dilations `[1,1]`. -/
def c5Attrs : PoolAttrs :=
  ⟨false, false, [2, 2], some [2, 2], some [1, 1], .notset, some [1, 1, 1, 1]⟩

/-- Pooling attributes exercising the C5 same-mode fast path: explicit
pads `[0,0,1,1]` equal to the computed SAME_UPPER padding for a `[4,4]`
input with kernel `[2,2]` and strides `[1,1]`. -/
def w5Attrs : PoolAttrs :=
  ⟨false, false, [2, 2], some [1, 1], some [1, 1], .notset, some [0, 0, 1, 1]⟩

/-- Pooling attributes for the C6 evidence: explicit pads `[0,5,0,5]`,
whose second-axis amounts (begin 5, end 5) exceed the input extent 4. -/
def c6Attrs : PoolAttrs :=
  ⟨false, false, [2, 2], some [1, 1], some [1, 1], .notset, some [0, 5, 0, 5]⟩

/-- Trial-error function for the C8 witness: candidate axis 1 reproduces
the reference exactly, every other candidate has aggregate error 1. -/
def c8trial : Int → Except PyExc ℚ :=
  fun a => if a = 1 then .ok 0 else .ok 1

/-! ## Theorems -/

/-- C1.  The claim says the recomputed output spatial size is compared
against the DECLARED output shape.  The code (AveragePool.py line 132)
compares it against the INPUT spatial size.  Evidence: `auto_pad`
`SAME_UPPER`, kernel `[2,2]`, strides `[2,2]`, input spatial `[4,4]`,
declared output `[2,2]`: the recomputed size `2` equals the declared
output, so per the claim nothing is forced, yet the code forces
`"valid"` (2 differs from the input size 4) and inserts no manual pad
(the pads attribute is empty, so the pad sum is 0). -/
theorem C1_output_check_against_input :
    workaroundForcesValid c1Attrs [4, 4] = true
    ∧ specForcesValid c1Attrs [4, 4] [2, 2] = false
    ∧ (averagePoolPadDecision c1Attrs [4, 4] true).padding = .valid
    ∧ (averagePoolPadDecision c1Attrs [4, 4] true).manualPad = none := by
  decide

/-- C2.  When validation is disabled (reference store is `None`) the
search is skipped and the structurally default axis is used, without
error.  But when the output tensor is absent from a supplied reference
set, the dict subscript at Softmax.py line 136 raises `KeyError`, which
the handler at line 187 (catching only
`tf.errors.InvalidArgumentError`) does not catch: the error propagates
instead of falling back silently, contradicting the claim. -/
theorem C2_absent_reference_raises :
    softmaxAxisSearch 2 3 "softmax_out" none (fun _ => .ok 0) = .ok 2
    ∧ softmaxAxisSearch 2 3 "softmax_out" (some [("other_out", ⟨0⟩)]) (fun _ => .ok 0)
        = .error (.keyError "softmax_out") :=
  ⟨rfl, rfl⟩

/-- C3.  The claim says a runtime error in one trial is caught locally,
the candidate is scored worst, and the search proceeds with remaining
candidates; no error propagates.  In the code the `try` wraps the WHOLE
candidate loop and catches only `tf.errors.InvalidArgumentError`
(Softmax.py lines 131, 187).  Evidence with rank 2 (trial order
`[1, 0]`): an `InvalidArgumentError` on candidate 1 aborts the search,
keeping the default axis 5 even though candidate 0 reproduces the
reference exactly, and no candidate completes evaluation; any other
exception class propagates out of the handler. -/
theorem C3_trial_error_aborts_search :
    softmaxAxisSearch 5 2 "out" (some [("out", ⟨0⟩)])
        (fun a => if a = 1 then .error (.invalidArgument "bad axis") else .ok 0) = .ok 5
    ∧ softmaxAxisSearch 5 2 "out" (some [("out", ⟨0⟩)])
        (fun a => if a = 1 then .error (.runtimeError "boom") else .ok 0)
        = .error (.runtimeError "boom")
    ∧ (oracleLoop
        (fun a => if a = 1 then .error (.invalidArgument "bad axis") else .ok 0)
        (checkAxes 2) ⟨sysMaxsize, 5, []⟩).1.evaluated = [] :=
  ⟨rfl, rfl, rfl⟩

/-- C4.  The claim says conversion fails at the boundary exactly when
neither input is supplied, and an in-memory graph suffices regardless of
the file path.  In the code (onnx2tf.py line 101) the file-existence
check runs unconditionally, so supplying only `onnx_graph` with the
default empty path exits fatally, contradicting the docstring that
`onnx_graph`, if specified, makes `input_onnx_file_path` ignored. -/
theorem C4_boundary_requires_file :
    convertBoundary "" none (fun _ => false) (fun _ => ⟨0⟩) = .exit1 missingInputMsg
    ∧ convertBoundary "model.onnx" none (fun p => p == "model.onnx") (fun _ => ⟨1⟩)
        = .proceed ⟨1⟩
    ∧ convertBoundary "" (some ⟨2⟩) (fun _ => false) (fun _ => ⟨0⟩)
        = .exit1 (missingFileMsg "") := by
  decide

/-- C6 counterpart fact: the symmetric-safety slice
`tmp_pad[1:spatial_size]` covers only spatial axes up to
`spatial_size - 2`, so an oversized pad on the LAST spatial axis is not
checked.  Evidence: explicit pads `[0,5,0,5]` on a `[4,4]` input: the
second spatial axis is padded by 5 on each side (more than the extent
4), yet the materialized manual pad uses `SYMMETRIC` mode, while the
all-axes safety condition of the claim is false. -/
theorem C6_symmetric_check_misses_last_axis :
    (averagePoolPadDecision c6Attrs [4, 4] true).manualPad
      = some (.tfPadOp [(0, 0), (0, 0), (5, 5), (0, 0)] true)
    ∧ allAxesSymmetricSafe [0, 5, 0, 5] 2 [4, 4] = false
    ∧ symmetricEnableCheck (tmpPad [0, 5, 0, 5] 2) 2 [4, 4] = [true] := by
  decide

/-- C7 counterexample.  With store insertion order `a` before `b` and
declared output order `["b", "a"]`, the code collects the handles in
insertion order `[1, 2]`, not the declared order `[2, 1]`. -/
theorem C7_counterexample :
    collectByNames [("a", 1), ("b", 2)] ["b", "a"] = [1, 2]
    ∧ collectDeclaredOrder [("a", 1), ("b", 2)] ["b", "a"] = [2, 1]
    ∧ collectByNames [("a", 1), ("b", 2)] ["b", "a"]
        ≠ collectDeclaredOrder [("a", 1), ("b", 2)] ["b", "a"] := by
  decide

/-- C10.  A Clip whose min input is a constant ndarray equal to 0.0 and
whose max input is a constant ndarray equal to 6.0 lowers to `relu6` of
the input tensor; with min a constant ndarray equal to 0.0 and a max
input of unknown shape it lowers to `relu` of the input tensor
(Clip.py lines 53-66). -/
theorem C10_clip_relu_branches :
    (∀ x : Nat, clipMakeNode x (.ndarrayConst 0) (.ndarrayConst 6) = some (.relu6 x))
    ∧ (∀ x : Nat, clipMakeNode x (.ndarrayConst 0) (.tensorVal none) = some (.relu x)) := by
  constructor
  · intro x
    simp [clipMakeNode, ClipBound.isNdarrayEq]
  · intro x
    simp [clipMakeNode, ClipBound.isNdarrayEq, ClipBound.shapeIsNone]

/-- C5 amended.  The same-mode fast path additionally requires the
explicit pads to be nonzero and the workaround loop (line 132, which
compares against the input spatial size) not to fire: under those
conditions the operator is lowered with `"same"` mode and no manual pad.
The concrete scenario of the claim (kernel `[2,2]`, strides `[2,2]`,
explicit pad `[1,1,1,1]`, input `[4,4]`), however, selects `"valid"`
with a manual symmetric pad, because `[1,1,1,1]` differs from the
computed SAME_UPPER padding `[0,0,0,0]` of that shape. -/
theorem C5_same_fast_path :
    (∀ (a : PoolAttrs) (inSpatial : List Int),
      a.auto_pad = .notset →
      a.count_include_pad = false →
      a.padsD ≠ List.replicate (2 * a.spatialSize) 0 →
      a.padsD = calcPadsSamePooling inSpatial a.kernel_shape a.stridesD a.dilationsD →
      workaroundForcesValid a inSpatial = false →
      averagePoolPadDecision a inSpatial true = ⟨.same, none⟩)
    ∧ (averagePoolPadDecision c5Attrs [4, 4] true).padding = .valid
    ∧ (averagePoolPadDecision c5Attrs [4, 4] true).manualPad
        = some (.tfPadOp [(0, 0), (1, 1), (1, 1), (0, 0)] true) := by
  refine ⟨?_, by decide, by decide⟩
  intro a inSpatial hap hcip hnz hsame hwk
  have hsel : resolvePadsVar a inSpatial true = .sameUpperSel := by
    simp only [resolvePadsVar, hap]
    rw [if_pos ⟨by simp, hnz, hsame⟩]
  simp [averagePoolPadDecision, hsel, initialModePad, hcip, hwk]

/-- C5 witness.  A pooling node whose explicit pads `[0,0,1,1]` equal the
computed SAME_UPPER padding of its `[4,4]` input (kernel `[2,2]`,
strides `[1,1]`) takes the same-mode fast path. -/
theorem C5_same_fast_path_witness :
    averagePoolPadDecision w5Attrs [4, 4] true = ⟨.same, none⟩ :=
  C5_same_fast_path.1 w5Attrs [4, 4] rfl rfl (by decide) (by decide) (by decide)

/-- C9.  A pooling kernel of spatial rank outside `{1,2,3}` makes the
handler fail with a message that names the operator and the unsupported
dimensionality, and no runtime node is produced; ranks 1, 2 and 3 build
the corresponding pooling layer without error
(AveragePool.py lines 163-195). -/
theorem C9_pool_rank :
    (∀ (ks : List Int) (opname : String), ks.length ∉ ([1, 2, 3] : List Nat) →
      buildPoolLayer ks opname = .error (poolRankErrMsg opname ks.length)
      ∧ ∃ s1 s2 s3 : String,
          poolRankErrMsg opname ks.length
            = s1 ++ opname ++ s2 ++ toString ks.length ++ s3)
    ∧ (∀ (ks : List Int) (opname : String), ks.length ∈ ([1, 2, 3] : List Nat) →
      ∃ layer, buildPoolLayer ks opname = .ok layer) := by
  constructor
  · intro ks opname h
    simp only [List.mem_cons, List.not_mem_nil, or_false, not_or] at h
    obtain ⟨h1, h2, h3⟩ := h
    refine ⟨by simp [buildPoolLayer, h1, h2, h3], ?_⟩
    exact ⟨"ERROR: AveragePool supports only 1D, 2D, and 3D. opname: ",
      " Type: AveragePool", "D", rfl⟩
  · intro ks opname h
    simp only [List.mem_cons, List.not_mem_nil, or_false] at h
    rcases h with h | h | h
    · exact ⟨.averagePooling1D, by simp [buildPoolLayer, h]⟩
    · exact ⟨.averagePooling2D, by simp [buildPoolLayer, h]⟩
    · exact ⟨.averagePooling3D, by simp [buildPoolLayer, h]⟩

/-- C9 witness: a 4-D kernel fails with the message naming the operator
and the rank, while a 2-D kernel builds a layer. -/
theorem C9_pool_rank_witness :
    buildPoolLayer [2, 2, 2, 2] "pool_a" = .error (poolRankErrMsg "pool_a" 4)
    ∧ ∃ layer, buildPoolLayer [2, 2] "pool_b" = .ok layer :=
  ⟨(C9_pool_rank.1 [2, 2, 2, 2] "pool_a" (by decide)).1,
    C9_pool_rank.2 [2, 2] "pool_b" (by decide)⟩

/-- Helper for C8: running the candidate loop over a prefix of candidates
whose trials complete with aggregate error at least the tolerance,
followed by a candidate whose trial is exact, selects the exact candidate
and stops right after evaluating it, whatever comes later. -/
theorem oracleLoop_hits_exact (trial : Int → Except PyExc ℚ) (c : Int) (rest : List Int)
    (hc : trial c = .ok 0) :
    ∀ (pre : List Int) (st : OracleState), oracleTol ≤ st.minAbsErr →
    (∀ b ∈ pre, ∃ q, trial b = .ok q ∧ oracleTol ≤ q) →
    oracleLoop trial (pre ++ c :: rest) st
      = (⟨0, c, st.evaluated ++ (pre ++ [c])⟩, none) := by
  intro pre
  induction pre with
  | nil =>
    intro st hst _
    have h0 : (0 : ℚ) < st.minAbsErr :=
      lt_of_lt_of_le (by norm_num [oracleTol]) hst
    have h1 : (0 : ℚ) < oracleTol := by norm_num [oracleTol]
    simp [oracleLoop, hc, h0, h1]
  | cons b pre ih =>
    intro st hst hpre
    obtain ⟨q, hq, hql⟩ := hpre b (List.mem_cons_self b pre)
    have hpre' : ∀ x ∈ pre, ∃ r, trial x = .ok r ∧ oracleTol ≤ r :=
      fun x hx => hpre x (List.mem_cons_of_mem b hx)
    have hnotlt : ¬ q < oracleTol := not_lt.mpr hql
    by_cases hlt : q < st.minAbsErr
    · have hrec := ih ⟨q, b, st.evaluated ++ [b]⟩ hql hpre'
      simp only [List.cons_append, oracleLoop, hq, List.append_eq]
      rw [if_pos hlt, if_neg hnotlt, hrec]
      simp
    · have hrec := ih ⟨st.minAbsErr, st.minAbsErrAxis, st.evaluated ++ [b]⟩ hst hpre'
      simp only [List.cons_append, oracleLoop, hq, List.append_eq]
      rw [if_neg hlt, hrec]
      simp

/-- C8.  The oracle tries candidate axes in deterministic descending
order (last axis first), and given a prefix of candidates whose errors
are at least the tolerance followed by a candidate reproducing the
reference exactly, it selects that candidate, evaluates exactly the
prefix plus that candidate, and never evaluates any later candidate;
through the full Softmax handler flow (with the output present in the
reference set) the exact candidate is the returned axis. -/
theorem C8_oracle_early_exit (trial : Int → Except PyExc ℚ) (axis : Int) (rank : Nat)
    (pre : List Int) (c : Int) (rest : List Int)
    (horder : checkAxes rank = pre ++ c :: rest)
    (hpre : ∀ b ∈ pre, ∃ q, trial b = .ok q ∧ oracleTol ≤ q)
    (hc : trial c = .ok 0) :
    List.Pairwise (fun x y => y < x) (checkAxes rank)
    ∧ (∀ (outputName : String) (t : RefTensor),
        softmaxAxisSearch axis rank outputName (some [(outputName, t)]) trial = .ok c)
    ∧ (oracleLoop trial (checkAxes rank) ⟨sysMaxsize, axis, []⟩).1.evaluated = pre ++ [c]
    ∧ (oracleLoop trial (checkAxes rank) ⟨sysMaxsize, axis, []⟩).1.minAbsErrAxis = c
    ∧ ∀ d ∈ rest, d ∉ (oracleLoop trial (checkAxes rank) ⟨sysMaxsize, axis, []⟩).1.evaluated := by
  have hmax : oracleTol ≤ (⟨sysMaxsize, axis, []⟩ : OracleState).minAbsErr := by
    norm_num [oracleTol, sysMaxsize]
  have hloop := oracleLoop_hits_exact trial c rest hc pre ⟨sysMaxsize, axis, []⟩ hmax hpre
  have hpair : List.Pairwise (fun x y : Int => y < x) (checkAxes rank) := by
    have h1 : List.Pairwise (fun a b : Nat => Int.ofNat a < Int.ofNat b) (List.range rank) :=
      List.Pairwise.imp (fun hab => Int.ofNat_lt.mpr hab) (List.pairwise_lt_range rank)
    have h2 : List.Pairwise (fun x y : Int => x < y)
        ((List.range rank).map Int.ofNat) := by
      rw [List.pairwise_map]
      exact h1
    exact List.pairwise_reverse.mpr h2
  have hloop' : oracleLoop trial (checkAxes rank) ⟨sysMaxsize, axis, []⟩
      = (⟨0, c, pre ++ [c]⟩, none) := by
    rw [horder, hloop]
    simp
  refine ⟨hpair, ?_, ?_, ?_, ?_⟩
  · intro outputName t
    have hfind : dictGetRef [(outputName, t)] outputName = .ok t := by
      simp [dictGetRef, List.find?]
    simp only [softmaxAxisSearch, hfind, hloop']
  · rw [hloop']
  · rw [hloop']
  · intro d hd
    rw [hloop']
    have hp := horder ▸ hpair
    have h12 := (List.pairwise_append.mp hp).2.2
    have hcrest := ((List.pairwise_append.mp hp).2.1)
    intro hmem
    rcases List.mem_append.mp hmem with hpre2 | hone
    · exact lt_irrefl d (h12 d hpre2 d (List.mem_cons_of_mem c hd))
    · have hdc : d = c := by simpa using hone
      subst hdc
      exact lt_irrefl d ((List.pairwise_cons.mp hcrest).1 d hd)

/-- C8 witness.  With rank 3 the trial order is `[2, 1, 0]`; candidate 1
reproduces the reference exactly while candidate 2 has error 1, so the
search returns axis 1 having evaluated only `[2, 1]` (candidate 0 is
never tried). -/
theorem C8_oracle_early_exit_witness :
    softmaxAxisSearch 9 3 "softmax_1" (some [("softmax_1", ⟨0⟩)]) c8trial = .ok 1
    ∧ (oracleLoop c8trial (checkAxes 3) ⟨sysMaxsize, 9, []⟩).1.evaluated = [2, 1] := by
  have hpre : ∀ b ∈ ([2] : List Int), ∃ q, c8trial b = .ok q ∧ oracleTol ≤ q := by
    intro b hb
    simp only [List.mem_singleton] at hb
    subst hb
    exact ⟨1, rfl, by norm_num [oracleTol]⟩
  have hc : c8trial 1 = .ok 0 := rfl
  have h := C8_oracle_early_exit c8trial 9 3 [2] 1 [0] (by decide) hpre hc
  exact ⟨h.2.1 "softmax_1" ⟨0⟩, by simpa using h.2.2.1⟩

/-- Helper for C7: in a store with duplicate-free keys, collecting by a
duplicate-free name list covered by the store keys yields, up to
permutation, the same handles as the declared-order lookup: the code
gets the right multiset of handles, only in store insertion order. -/
theorem collectByNames_perm_declared (store : List (String × Nat)) :
    ∀ (names : List String), (store.map Prod.fst).Nodup → names.Nodup →
    (∀ n ∈ names, n ∈ store.map Prod.fst) →
    (collectByNames store names).Perm (collectDeclaredOrder store names) := by
  induction store with
  | nil =>
    intro names _ _ _
    simp [collectByNames, collectDeclaredOrder]
  | cons kv store ih =>
    intro names hstore hnames hmem
    rw [List.map_cons, List.nodup_cons] at hstore
    obtain ⟨hknotin, hstoreN⟩ := hstore
    by_cases hk : kv.1 ∈ names
    · have hLHS : collectByNames (kv :: store) names
          = kv.2 :: collectByNames store names := by
        simp [collectByNames, hk]
      have hfilter : collectByNames store names
          = collectByNames store (names.erase kv.1) := by
        unfold collectByNames
        congr 1
        refine List.filter_congr ?_
        intro x hx
        have hxne : x.1 ≠ kv.1 := fun h => hknotin (h ▸ List.mem_map_of_mem Prod.fst hx)
        simp [List.mem_erase_of_ne hxne]
      have hhead : (List.find? (fun x => decide (x.1 = kv.1)) (kv :: store))
          = some kv :=
        List.find?_cons_of_pos _ (by simp)
      have htail : (names.erase kv.1).filterMap
            (fun n => (List.find? (fun x => decide (x.1 = n)) (kv :: store)).map
              (fun x => x.2))
          = collectDeclaredOrder store (names.erase kv.1) := by
        refine List.filterMap_congr ?_
        intro n hn
        have hne : n ≠ kv.1 := (hnames.mem_erase_iff.mp hn).1
        rw [List.find?_cons_of_neg _ (by simp [Ne.symm hne])]
      have hRHS : (collectDeclaredOrder (kv :: store) names).Perm
          (kv.2 :: collectDeclaredOrder store (names.erase kv.1)) := by
        unfold collectDeclaredOrder
        refine ((List.perm_cons_erase hk).filterMap _).trans ?_
        rw [show collectDeclaredOrder store (names.erase kv.1)
            = (names.erase kv.1).filterMap
                (fun n => (List.find? (fun x => decide (x.1 = n)) store).map
                  (fun x => x.2)) from rfl] at htail
        simp only [List.filterMap_cons, hhead, Option.map_some, htail]
        exact List.Perm.refl _
      have hmem' : ∀ n ∈ names.erase kv.1, n ∈ store.map Prod.fst := by
        intro n hn
        obtain ⟨hne, hnin⟩ := hnames.mem_erase_iff.mp hn
        have := hmem n hnin
        rw [List.map_cons, List.mem_cons] at this
        exact this.resolve_left hne
      rw [hLHS, hfilter]
      exact (List.Perm.cons kv.2
        (ih (names.erase kv.1) hstoreN (hnames.erase kv.1) hmem')).trans hRHS.symm
    · have hLHS : collectByNames (kv :: store) names = collectByNames store names := by
        simp [collectByNames, hk]
      have hRHS : collectDeclaredOrder (kv :: store) names
          = collectDeclaredOrder store names := by
        unfold collectDeclaredOrder
        refine List.filterMap_congr ?_
        intro n hn
        have hne : kv.1 ≠ n := fun h => hk (h ▸ hn)
        rw [List.find?_cons_of_neg _ (by simp [hne])]
      have hmem' : ∀ n ∈ names, n ∈ store.map Prod.fst := by
        intro n hn
        have := hmem n hn
        rw [List.map_cons, List.mem_cons] at this
        refine this.resolve_left ?_
        intro h
        exact hk (h ▸ hn)
      rw [hLHS, hRHS]
      exact ih names hstoreN hnames hmem'

/-- C7 amended.  The Walker collects matching IR entries in store
insertion order, not declared order: for the declared inputs this
coincides with declared order, because the Walker inserts the declared
inputs first, in declared order, before any operator entry; for the
declared outputs the collection is a permutation of the declared-order
collection (the handles are right, their order is processing order). -/
theorem C7_collection_order (inputs rest : List (String × Nat))
    (hdisj : ∀ kv ∈ rest, kv.1 ∉ inputs.map Prod.fst) :
    collectByNames (inputs ++ rest) (inputs.map Prod.fst) = inputs.map Prod.snd
    ∧ ∀ (outNames : List String), ((inputs ++ rest).map Prod.fst).Nodup →
        outNames.Nodup →
        (∀ n ∈ outNames, n ∈ (inputs ++ rest).map Prod.fst) →
        (collectByNames (inputs ++ rest) outNames).Perm
          (collectDeclaredOrder (inputs ++ rest) outNames) := by
  constructor
  · unfold collectByNames
    rw [List.filter_append]
    have h1 : inputs.filter (fun kv => decide (kv.1 ∈ inputs.map Prod.fst)) = inputs := by
      refine List.filter_eq_self.mpr ?_
      intro kv hkv
      simpa using List.mem_map_of_mem Prod.fst hkv
    have h2 : rest.filter (fun kv => decide (kv.1 ∈ inputs.map Prod.fst)) = [] := by
      refine List.filter_eq_nil_iff.mpr ?_
      intro kv hkv
      simpa using hdisj kv hkv
    rw [h1, h2, List.append_nil]
  · intro outNames hnodup houtN hcov
    exact collectByNames_perm_declared (inputs ++ rest) outNames hnodup houtN hcov

/-- C7 witness.  A walker store with input entry `x` and operator entries
`a`, `b` (in processing order): the input collection is `[10]` in
declared order, and collecting the declared outputs `["b", "a"]` yields a
permutation of the declared-order handles. -/
theorem C7_collection_order_witness :
    collectByNames [("x", 10), ("a", 1), ("b", 2)] ["x"] = [10]
    ∧ (collectByNames [("x", 10), ("a", 1), ("b", 2)] ["b", "a"]).Perm
        (collectDeclaredOrder [("x", 10), ("a", 1), ("b", 2)] ["b", "a"]) := by
  have h := C7_collection_order [("x", 10)] [("a", 1), ("b", 2)] (by decide)
  exact ⟨h.1, h.2 ["b", "a"] (by decide) (by decide) (by decide)⟩

/-- C5 counterexample.  The concrete scenario of the claim (kernel
`[2,2]`, strides `[2,2]`, explicit pad `[1,1,1,1]`, input spatial
`[4,4]`, declared output `[3,3]`) does not select `"same"` mode and does
insert a manual pad node. -/
theorem C5_counterexample :
    (averagePoolPadDecision c5Attrs [4, 4] true).padding ≠ .same
    ∧ (averagePoolPadDecision c5Attrs [4, 4] true).manualPad ≠ none := by
  decide
